import Mathlib

/-!
Verification development for the seek-scraper-app lead pipeline.

The definitions below are a shallow embedding of the repository's
normalization and persistence-decision code:

* `ExtractedLead`, `ExtractedLead.model_validate` — `backend/app/schemas.py`
  (the pydantic v2 model with aliased string fields defaulting to "N/A")
  together with pydantic v2 lax-mode validation semantics: a `str` field
  accepts only JSON strings (numbers/booleans/null/containers are rejected
  with a validation error), an `int` field accepts integers and integer
  strings, a missing key falls back to the declared default, and aliases
  are tried before field names (`populate_by_name=True`).
* `parse_ddmmyyyy`, `_safeguard_date` — `app/extract.py` lines 29-41:
  `datetime.datetime.strptime(date_str, "%d/%m/%Y")` succeeds exactly on
  strings of the shape `d/m/Y` where the day and month components are one
  or two digits, the year component is exactly four digits, and the values
  form a valid proleptic-Gregorian calendar date with year at least 1.
* `derive_fields`, `extract_lead`, `parse_raw` — `app/extract.py`
  lines 78-126: JSON-parsing fallback, qualification, skip-reason,
  priority and dedupe-key computation.
* `_ddmmyyyy_to_iso`, `ingest_dedupe` — `app/main.py` lines 318-358:
  the `/ingest` endpoint's date conversion and duplicate/store decision.

Pure-function parameters stand for the ambient effects of the source:
`today` stands for the string returned by `_today_au_str()` (the current
date in the `Australia/Adelaide` timezone rendered as DD/MM/YYYY), and
`RawPayload` records what `json.loads` and the `\x7b.*\x7d` regex search
return on the extractor's raw text.
-/

/-- JSON values as produced by `json.loads` (numbers restricted to the
integers, which suffices for every claim considered here). -/
inductive Json where
  | str (s : String)
  | num (n : Int)
  | jbool (b : Bool)
  | jnull
  | arr (elems : List Json)
  | obj (fields : List (String × Json))

/-- Errors that `extract_lead` can raise: the explicit
`ValueError("Failed to parse JSON from AI response.")`, an uncaught
`json.JSONDecodeError` from the fallback `json.loads`, and pydantic
`ValidationError`s (input not a dict, or a field of the wrong type). -/
inductive ExtractError where
  | parse_failed
  | json_decode_error
  | not_a_mapping
  | validation_error (field : String)
deriving Repr, DecidableEq

/-- First-match association lookup, the behaviour of a Python dict lookup
on the key sets that occur here. -/
def assoc (p : List (String × Json)) (k : String) : Option Json :=
  match p with
  | [] => none
  | (k', v) :: rest => if k' == k then some v else assoc rest k

/-- Lookup of a pydantic field value: the alias is tried first, then the
field name (`populate_by_name=True`). -/
def fieldLookup (p : List (String × Json)) (al fname : String) : Option Json :=
  match assoc p al with
  | some v => some v
  | none => assoc p fname

/-- Validation of one pydantic `str` field in lax mode: a missing key
falls back to the default, a JSON string is taken verbatim, and any other
JSON value is a validation error. -/
def vStr (field dflt : String) (v : Option Json) : Except ExtractError String :=
  match v with
  | none => .ok dflt
  | some (.str s) => .ok s
  | some _ => .error (.validation_error field)

/-- Validation of one pydantic `int` field in lax mode: a missing key
falls back to the default, integers are taken verbatim, integer strings
are coerced, and anything else is a validation error. -/
def vInt (field : String) (dflt : Int) (v : Option Json) : Except ExtractError Int :=
  match v with
  | none => .ok dflt
  | some (.num n) => .ok n
  | some (.str s) =>
    match s.toInt? with
    | some n => .ok n
    | none => .error (.validation_error field)
  | some _ => .error (.validation_error field)

/-- The `ExtractedLead` pydantic model of `backend/app/schemas.py`:
fourteen aliased string fields defaulting to "N/A" plus the computed
fields `qualified`/`priority`/`dedupe_key` with their declared defaults. -/
structure ExtractedLead where
  first_name : String := "N/A"
  email : String := "N/A"
  phone : String := "N/A"
  company : String := "N/A"
  roles_advertised : String := "N/A"
  sector : String := "N/A"
  employment_type : String := "N/A"
  date_posted : String := "N/A"
  entry_date : String := "N/A"
  salary_info : String := "N/A"
  location : String := "N/A"
  ad_url : String := "N/A"
  skip : String := "N/A"
  skip_reason : String := "N/A"
  qualified : String := "No"
  priority : Int := 0
  dedupe_key : String := ""
deriving Repr, DecidableEq

/-- Embedding of `ExtractedLead.model_validate(data)` on a JSON mapping:
each aliased field is looked up under its alias then its name and
validated as a lax `str`; the computed fields are looked up under their
names only. -/
def ExtractedLead.model_validate (p : List (String × Json)) :
    Except ExtractError ExtractedLead := do
  let first_name ← vStr "First Name" "N/A" (fieldLookup p "First Name" "first_name")
  let email ← vStr "Email" "N/A" (fieldLookup p "Email" "email")
  let phone ← vStr "Phone" "N/A" (fieldLookup p "Phone" "phone")
  let company ← vStr "Company" "N/A" (fieldLookup p "Company" "company")
  let roles_advertised ← vStr "Roles Advertised" "N/A" (fieldLookup p "Roles Advertised" "roles_advertised")
  let sector ← vStr "Sector" "N/A" (fieldLookup p "Sector" "sector")
  let employment_type ← vStr "Employment Type" "N/A" (fieldLookup p "Employment Type" "employment_type")
  let date_posted ← vStr "Date Posted" "N/A" (fieldLookup p "Date Posted" "date_posted")
  let entry_date ← vStr "Entry Date" "N/A" (fieldLookup p "Entry Date" "entry_date")
  let salary_info ← vStr "Salary Info" "N/A" (fieldLookup p "Salary Info" "salary_info")
  let location ← vStr "Location" "N/A" (fieldLookup p "Location" "location")
  let ad_url ← vStr "Ad URL" "N/A" (fieldLookup p "Ad URL" "ad_url")
  let skip ← vStr "Skip" "N/A" (fieldLookup p "Skip" "skip")
  let skip_reason ← vStr "Skip Reason" "N/A" (fieldLookup p "Skip Reason" "skip_reason")
  let qualified ← vStr "qualified" "No" (assoc p "qualified")
  let priority ← vInt "priority" 0 (assoc p "priority")
  let dedupe_key ← vStr "dedupe_key" "" (assoc p "dedupe_key")
  pure
    { first_name := first_name, email := email, phone := phone,
      company := company, roles_advertised := roles_advertised,
      sector := sector, employment_type := employment_type,
      date_posted := date_posted, entry_date := entry_date,
      salary_info := salary_info, location := location, ad_url := ad_url,
      skip := skip, skip_reason := skip_reason, qualified := qualified,
      priority := priority, dedupe_key := dedupe_key }

/-- Embedding of `ExtractedLead.model_validate` on an arbitrary JSON
value: pydantic rejects anything that is not a dict. -/
def ExtractedLead.model_validate_json (j : Json) : Except ExtractError ExtractedLead :=
  match j with
  | .obj p => ExtractedLead.model_validate p
  | _ => .error .not_a_mapping

/-- Characters of Python's `str.strip()` whitespace set (restricted to
ASCII, which covers every string this development touches). -/
def py_isspace (c : Char) : Bool :=
  c == ' ' || c == '\t' || c == '\n' || c == '\r' || c == '\x0b' || c == '\x0c'

/-- Embedding of Python's `str.lower()` (ASCII range, which covers every
string compared by the code under verification). -/
def py_lower (s : String) : String :=
  ⟨s.data.map Char.toLower⟩

/-- Embedding of Python's `str.strip()`: drop leading and trailing
whitespace. -/
def py_strip (s : String) : String :=
  ⟨((s.data.dropWhile py_isspace).reverse.dropWhile py_isspace).reverse⟩

/-- Prefix test on character lists (kernel-reducible). -/
def listStarts : List Char → List Char → Bool
  | [], _ => true
  | _ :: _, [] => false
  | a :: pre, b :: rest => a == b && listStarts pre rest

/-- Embedding of Python's `str.startswith(pre)`. -/
def py_startswith (s pre : String) : Bool :=
  listStarts pre.data s.data

/-- Split a character list at every occurrence of `c`, the behaviour of
Python's `s.split(c)` and of the component structure of the `%d/%m/%Y`
`strptime` pattern. -/
def splitChar (c : Char) : List Char → List (List Char)
  | [] => [[]]
  | a :: rest =>
    if a == c then [] :: splitChar c rest
    else
      match splitChar c rest with
      | h :: t => (a :: h) :: t
      | [] => [[a]]

/-- Numeric value of a list of decimal digit characters. -/
def digitsVal (l : List Char) : Nat :=
  l.foldl (fun a c => a * 10 + (c.toNat - 48)) 0

/-- Gregorian leap-year rule, as used by Python's `datetime`. -/
def isLeap (y : Nat) : Bool :=
  y % 4 == 0 && (y % 100 != 0 || y % 400 == 0)

/-- Number of days of month `m` in year `y` (0 for an invalid month). -/
def daysInMonth (m y : Nat) : Nat :=
  if m == 2 then (if isLeap y then 29 else 28)
  else if m == 4 || m == 6 || m == 9 || m == 11 then 30
  else if 1 ≤ m && m ≤ 12 then 31
  else 0

/-- Embedding of `datetime.datetime.strptime(s, "%d/%m/%Y")`: succeeds
exactly when `s` is `d/m/Y` with day and month of one or two digits,
year of exactly four digits, and the values a valid calendar date with
year at least `datetime.MINYEAR = 1`. -/
def parse_ddmmyyyy (s : String) : Option (Nat × Nat × Nat) :=
  match splitChar '/' s.data with
  | [ds, ms, ys] =>
    if (ds.length == 1 || ds.length == 2) && ds.all (·.isDigit) &&
       (ms.length == 1 || ms.length == 2) && ms.all (·.isDigit) &&
       ys.length == 4 && ys.all (·.isDigit) then
      let d := digitsVal ds
      let m := digitsVal ms
      let y := digitsVal ys
      if 1 ≤ y && 1 ≤ m && m ≤ 12 && 1 ≤ d && d ≤ daysInMonth m y then
        some (d, m, y)
      else none
    else none
  | _ => none

/-- Timezone constant of `app/extract.py` line 29. -/
def TZ : String := "Australia/Adelaide"

/-- Embedding of `_safeguard_date` (`app/extract.py` lines 35-41); the
`today` parameter stands for `_today_au_str()`, the current date in the
`TZ` timezone rendered as DD/MM/YYYY. -/
def _safeguard_date (today date_str : String) : String :=
  if (parse_ddmmyyyy date_str).isSome then date_str else today

/-- Embedding of `extract_lead` lines 93-126 of `app/extract.py`: date
safeguarding, the qualification/skip-reason rules, the priority score and
the dedupe key, applied to the validated lead. -/
def derive_fields (today : String) (lead0 : ExtractedLead) : ExtractedLead :=
  let lead1 := { lead0 with
    entry_date := _safeguard_date today lead0.entry_date,
    date_posted := _safeguard_date today lead0.date_posted }
  let is_qualified :=
    lead1.skip == "No" && lead1.sector == "Electrical" &&
      py_startswith (py_lower lead1.employment_type) "full"
  let lead2 :=
    if is_qualified then { lead1 with qualified := "Yes" }
    else if lead1.skip == "No" then
      (if lead1.sector != "Electrical" then
        { lead1 with skip_reason := "Not in Electrical sector (is " ++ lead1.sector ++ ")" }
      else if !(py_startswith (py_lower lead1.employment_type) "full") then
        { lead1 with skip_reason := "Not a full-time role (is " ++ lead1.employment_type ++ ")" }
      else lead1)
    else lead1
  let score : Int :=
    (if lead2.email != "N/A" then 2 else 0) +
    (if lead2.phone != "N/A" then 1 else 0) +
    (if lead2.salary_info != "N/A" then 1 else 0)
  let lead3 := { lead2 with priority := score }
  { lead3 with
    dedupe_key := py_strip (py_lower lead3.company) ++ "|" ++ py_strip (py_lower lead3.roles_advertised) }

/-- Record of what the Python standard library returns on the extractor's
raw text (`app/extract.py` lines 78-88): the result of `json.loads` on
the whole text, the regex search for a brace-delimited substring, and the
result of `json.loads` on that substring. -/
structure RawPayload where
  loads : Option Json
  brace_match : Option String
  loads_of_match : Option Json

/-- Embedding of the JSON-parsing step of `extract_lead` (lines 78-88):
direct `json.loads`, else the regex fallback — whose own `json.loads`
failure propagates as an uncaught `JSONDecodeError` — else the explicit
`ValueError`. -/
def parse_raw (r : RawPayload) : Except ExtractError Json :=
  match r.loads with
  | some j => .ok j
  | none =>
    match r.brace_match with
    | some _ =>
      match r.loads_of_match with
      | some j => .ok j
      | none => .error .json_decode_error
    | none => .error .parse_failed

/-- Embedding of `extract_lead` (`app/extract.py` lines 78-126): parse
the raw payload, validate it with the pydantic model, then compute the
derived fields. -/
def extract_lead (today : String) (r : RawPayload) : Except ExtractError ExtractedLead := do
  let data ← parse_raw r
  let lead ← ExtractedLead.model_validate_json data
  pure (derive_fields today lead)

/-- Two-digit zero-padded decimal rendering (for `date.isoformat()`). -/
def pad2 (n : Nat) : String :=
  ⟨[Nat.digitChar (n / 10 % 10), Nat.digitChar (n % 10)]⟩

/-- Four-digit zero-padded decimal rendering (for `date.isoformat()`). -/
def pad4 (n : Nat) : String :=
  ⟨[Nat.digitChar (n / 1000 % 10), Nat.digitChar (n / 100 % 10),
    Nat.digitChar (n / 10 % 10), Nat.digitChar (n % 10)]⟩

/-- Embedding of the `_ddmmyyyy_to_iso` helper of the `/ingest` endpoint
(`app/main.py` lines 318-326): empty or sentinel strings and unparseable
strings map to `None`, a parseable DD/MM/YYYY string to its ISO form. -/
def _ddmmyyyy_to_iso (val : String) : Option String :=
  if val == "" || val == "N/A" then none
  else
    match parse_ddmmyyyy val with
    | some (d, m, y) => some (pad4 y ++ "-" ++ pad2 m ++ "-" ++ pad2 d)
    | none => none

/-- One stored row of the `leads` table, restricted to the columns the
duplicate/store decision of `app/main.py` reads or writes. -/
structure LeadRow where
  id : Nat
  dedupe_key : String
  duplicate_flag : Bool
deriving Repr, DecidableEq

/-- The data the `/ingest` endpoint's decision step consumes: the lead's
dedupe key, the boolean computed on line 335 from the extracted
`qualified` string, and the skip reason. -/
structure IngestData where
  dedupe_key : String
  qualified : Bool
  skip_reason : String
deriving Repr, DecidableEq

/-- Terminal outcome of the `/ingest` endpoint for one posting. -/
inductive IngestStatus where
  | duplicate (lead_id : Nat)
  | skipped (reason : String)
  | stored (id : Nat)
deriving Repr, DecidableEq

/-- Embedding of the duplicate/store decision of the `/ingest` endpoint
(`app/main.py` lines 344-358): select the rows matching the dedupe key;
if any exists, flag the first one (unless already flagged) and answer
`duplicate`; otherwise drop unqualified leads (`skipped`) and insert
qualified ones with `duplicate_flag=False` (`stored`). The database is
the list of stored rows and `nextId` the id storage would assign. -/
def ingest_dedupe (db : List LeadRow) (nextId : Nat) (d : IngestData) :
    List LeadRow × IngestStatus :=
  match db.find? (fun r => r.dedupe_key == d.dedupe_key) with
  | some row =>
    (if row.duplicate_flag then db
     else db.map (fun r => if r.id == row.id then { r with duplicate_flag := true } else r),
     .duplicate row.id)
  | none =>
    if !d.qualified then (db, .skipped d.skip_reason)
    else (db ++ [{ id := nextId, dedupe_key := d.dedupe_key, duplicate_flag := false }],
          .stored nextId)

/-- The three-clause qualification predicate of `extract_lead`
(lines 99-103), as a boolean on the validated lead. -/
def qual_cond (l : ExtractedLead) : Bool :=
  l.skip == "No" && l.sector == "Electrical" && py_startswith (py_lower l.employment_type) "full"

/-- The skip reason `extract_lead` leaves on the lead (lines 104-112):
untouched when qualified or when the AI set `Skip` to anything other
than "No"; otherwise the sector reason, else the employment-type
reason. -/
def reason_of (l : ExtractedLead) : String :=
  if qual_cond l then l.skip_reason
  else if l.skip == "No" then
    (if l.sector != "Electrical" then
      "Not in Electrical sector (is " ++ l.sector ++ ")"
    else if !(py_startswith (py_lower l.employment_type) "full") then
      "Not a full-time role (is " ++ l.employment_type ++ ")"
    else l.skip_reason)
  else l.skip_reason

/-- The priority score of `extract_lead` (lines 114-119). -/
def score_of (l : ExtractedLead) : Int :=
  (if l.email != "N/A" then 2 else 0) +
  (if l.phone != "N/A" then 1 else 0) +
  (if l.salary_info != "N/A" then 1 else 0)

/-- The dedupe key of `extract_lead` (lines 121-124). -/
def key_of (l : ExtractedLead) : String :=
  py_strip (py_lower l.company) ++ "|" ++ py_strip (py_lower l.roles_advertised)

/-- Characterization of `derive_fields`: it safeguards the two dates,
sets `qualified` to "Yes" exactly when the three-clause predicate holds
(leaving the validated value otherwise), rewrites the skip reason as
`reason_of` does, and overwrites priority and dedupe key. -/
theorem derive_fields_eq (today : String) (l : ExtractedLead) :
    derive_fields today l =
      { l with
        entry_date := _safeguard_date today l.entry_date,
        date_posted := _safeguard_date today l.date_posted,
        qualified := if qual_cond l then "Yes" else l.qualified,
        skip_reason := reason_of l,
        priority := score_of l,
        dedupe_key := key_of l } := by
  simp only [derive_fields, qual_cond, reason_of, score_of, key_of]
  split <;> rename_i h1
  · rfl
  · split <;> rename_i h2
    · split <;> rename_i h3
      · rfl
      · split <;> rfl
    · rfl

/-- Propositional reading of the three-clause qualification predicate. -/
theorem qual_cond_iff (l : ExtractedLead) :
    qual_cond l = true ↔
      (l.skip = "No" ∧ l.sector = "Electrical" ∧
        py_startswith (py_lower l.employment_type) "full" = true) := by
  simp [qual_cond, Bool.and_eq_true, and_assoc]

/-- Claim C3: for every input the dedupe key is the lower-cased and
stripped company, a "|" separator, and the lower-cased and stripped
roles; keys are therefore stable under case and surrounding-whitespace
variation (the spec's own example pair), and the "N/A" sentinel is used
verbatim, yielding the key "n/a|n/a". -/
theorem claim3_dedupe_key :
    (∀ today l, (derive_fields today l).dedupe_key =
      py_strip (py_lower l.company) ++ "|" ++ py_strip (py_lower l.roles_advertised)) ∧
    ((derive_fields "17/08/2025"
        { company := "  Acme Co ", roles_advertised := "Electrician" }).dedupe_key =
      (derive_fields "17/08/2025"
        { company := "acme co", roles_advertised := "ELECTRICIAN" }).dedupe_key) ∧
    ((derive_fields "17/08/2025"
        { company := "N/A", roles_advertised := "N/A" }).dedupe_key = "n/a|n/a") := by
  refine ⟨fun today l => ?_, by decide, by decide⟩
  rw [derive_fields_eq]
  rfl

/-- Claim C4: the priority is the sum of 2 for a present (non-sentinel)
email, 1 for a present phone and 1 for a present salary, hence lies in
[0,4]; and making additional fields present never decreases it. -/
theorem claim4_priority (t t' : String) (l l' : ExtractedLead)
    (he : l.email ≠ "N/A" → l'.email ≠ "N/A")
    (hp : l.phone ≠ "N/A" → l'.phone ≠ "N/A")
    (hs : l.salary_info ≠ "N/A" → l'.salary_info ≠ "N/A") :
    ((derive_fields t l).priority =
      (if l.email ≠ "N/A" then 2 else 0) + (if l.phone ≠ "N/A" then 1 else 0) +
        (if l.salary_info ≠ "N/A" then 1 else 0)) ∧
    (0 ≤ (derive_fields t l).priority ∧ (derive_fields t l).priority ≤ 4) ∧
    ((derive_fields t l).priority ≤ (derive_fields t' l').priority) := by
  rw [derive_fields_eq, derive_fields_eq]
  show score_of l = _ ∧ (0 ≤ score_of l ∧ score_of l ≤ 4) ∧ score_of l ≤ score_of l'
  unfold score_of
  by_cases a1 : l.email = "N/A" <;> by_cases a2 : l.phone = "N/A" <;>
    by_cases a3 : l.salary_info = "N/A" <;> by_cases b1 : l'.email = "N/A" <;>
    by_cases b2 : l'.phone = "N/A" <;> by_cases b3 : l'.salary_info = "N/A" <;>
    simp_all

/-- Witness for claim C4 at concrete inputs: the empty-presence lead has
priority 0 and never exceeds the all-present lead (priority 4). -/
theorem claim4_priority_witness :
    (derive_fields "17/08/2025" ({} : ExtractedLead)).priority ≤
      (derive_fields "17/08/2025"
        { email := "jobs@sparkyco.com.au", phone := "0400 000 000",
          salary_info := "Great salary package" }).priority :=
  (claim4_priority "17/08/2025" "17/08/2025" {}
    { email := "jobs@sparkyco.com.au", phone := "0400 000 000",
      salary_info := "Great salary package" }
    (by decide) (by decide) (by decide)).2.2

/-- Claim C1 as stated is false on the code: the comparison on line 100
of `app/extract.py` is against the capitalised "No", so an input with
`skip = "no"` and otherwise qualifying fields is not marked qualified;
and an input whose payload already carries `qualified = "Yes"` keeps that
value even when `skip = "yes"`. -/
theorem claim1_counterexample :
    (let l : ExtractedLead := { skip := "no", sector := "Electrical", employment_type := "Full-time" };
      ¬ (((derive_fields "17/08/2025" l).qualified = "Yes") ↔
          (l.skip = "no" ∧ l.sector = "Electrical" ∧
            py_startswith (py_lower l.employment_type) "full" = true))) ∧
    (let l : ExtractedLead := { skip := "yes", qualified := "Yes" };
      ¬ (((derive_fields "17/08/2025" l).qualified = "Yes") ↔
          (l.skip = "no" ∧ l.sector = "Electrical" ∧
            py_startswith (py_lower l.employment_type) "full" = true))) := by
  decide

/-- Claim C1 (amended): on a validated lead whose `qualified` field still
holds its default "No" (the payload supplied no `qualified` key), the
normalizer marks the lead qualified ("Yes") exactly when `skip = "No"`
(capital N, as the code compares), the sector is exactly "Electrical"
and the employment type starts with "full" case-insensitively; in every
other case `qualified` stays "No". -/
theorem claim1_qualified_iff (today : String) (l : ExtractedLead) (h : l.qualified = "No") :
    ((derive_fields today l).qualified = "Yes" ↔
      (l.skip = "No" ∧ l.sector = "Electrical" ∧
        py_startswith (py_lower l.employment_type) "full" = true)) ∧
    ((derive_fields today l).qualified = "Yes" ∨ (derive_fields today l).qualified = "No") := by
  rw [derive_fields_eq]
  show ((if qual_cond l then "Yes" else l.qualified) = "Yes" ↔ _) ∧
    ((if qual_cond l then "Yes" else l.qualified) = "Yes" ∨
      (if qual_cond l then "Yes" else l.qualified) = "No")
  rw [← qual_cond_iff]
  by_cases hq : qual_cond l <;> simp [hq, h]

/-- Witness for claim C1 (amended): the mock lead (capitalised "No",
Electrical sector, "Full-time") is marked qualified. -/
theorem claim1_qualified_iff_witness :
    (derive_fields "17/08/2025"
      { skip := "No", sector := "Electrical", employment_type := "Full-time" }).qualified = "Yes" :=
  (claim1_qualified_iff "17/08/2025"
    { skip := "No", sector := "Electrical", employment_type := "Full-time" } rfl).1.mpr
    (by refine ⟨rfl, rfl, ?_⟩; decide)

/-- Claim C5 as stated is false on the code for the same reason as C1:
with `skip = "no"` (lower-case) and a non-Electrical sector the code
leaves the AI-provided skip reason untouched instead of overwriting it
with the sector reason. -/
theorem claim5_counterexample :
    (let l : ExtractedLead := { skip := "no", sector := "Plumbing", skip_reason := "N/A" };
      l.skip = "no" ∧ l.sector ≠ "Electrical" ∧
      (derive_fields "17/08/2025" l).skip_reason = "N/A" ∧
      (derive_fields "17/08/2025" l).skip_reason ≠ "Not in Electrical sector (is Plumbing)") := by
  decide

/-- Claim C5 (amended): for a lead with `skip = "No"` (capital N) that
fails qualification, the normalizer overwrites the skip reason naming
the first failing clause with sector checked before employment type —
whenever the sector is not "Electrical" the reason names the sector,
regardless of the employment type; only with the sector equal to
"Electrical" and a non-"full" employment type does the reason name the
employment type. For a lead whose `skip` is anything other than "No"
(in particular "yes"), the AI-provided skip reason is left unchanged. -/
theorem claim5_skip_reason (today : String) (l : ExtractedLead) :
    (l.skip = "No" → l.sector ≠ "Electrical" →
      (derive_fields today l).skip_reason = "Not in Electrical sector (is " ++ l.sector ++ ")") ∧
    (l.skip = "No" → l.sector = "Electrical" →
      py_startswith (py_lower l.employment_type) "full" = false →
      (derive_fields today l).skip_reason = "Not a full-time role (is " ++ l.employment_type ++ ")") ∧
    (l.skip ≠ "No" → (derive_fields today l).skip_reason = l.skip_reason) := by
  refine ⟨fun hs hsec => ?_, fun hs hsec hemp => ?_, fun hs => ?_⟩
  · rw [derive_fields_eq]
    show reason_of l = _
    simp [reason_of, qual_cond, hs, hsec]
  · rw [derive_fields_eq]
    show reason_of l = _
    simp [reason_of, qual_cond, hs, hsec, hemp]
  · rw [derive_fields_eq]
    show reason_of l = _
    simp [reason_of, qual_cond, hs]

/-- Witness for claim C5 (amended): with both the sector clause and the
employment-type clause failing, the reason names the sector. -/
theorem claim5_skip_reason_witness :
    (derive_fields "17/08/2025"
      { skip := "No", sector := "Plumbing", employment_type := "Part-time" }).skip_reason =
      "Not in Electrical sector (is Plumbing)" :=
  (claim5_skip_reason "17/08/2025"
    { skip := "No", sector := "Plumbing", employment_type := "Part-time" }).1 rfl (by decide)

/-- Safeguarded dates always parse, provided the current-date string
itself parses (which `strftime("%d/%m/%Y")` guarantees). -/
theorem parse_safeguard (today s : String) (h : (parse_ddmmyyyy today).isSome = true) :
    (parse_ddmmyyyy (_safeguard_date today s)).isSome = true := by
  unfold _safeguard_date
  by_cases hs : (parse_ddmmyyyy s).isSome = true <;> simp [hs, h]

/-- Claim C6: a string parsing in the fixed DD/MM/YYYY format is kept
unchanged by the date safeguard, any other string is replaced by the
current date, and hence — since the current-date string parses — the
safeguarded `entry_date` and `date_posted` of every normalized lead
always parse as valid calendar dates. -/
theorem claim6_date_invariant (today : String) (h : (parse_ddmmyyyy today).isSome = true) :
    (∀ s, (parse_ddmmyyyy s).isSome = true → _safeguard_date today s = s) ∧
    (∀ s, (parse_ddmmyyyy s).isSome = false → _safeguard_date today s = today) ∧
    (∀ s, (parse_ddmmyyyy (_safeguard_date today s)).isSome = true) ∧
    (∀ l, (parse_ddmmyyyy (derive_fields today l).entry_date).isSome = true ∧
      (parse_ddmmyyyy (derive_fields today l).date_posted).isSome = true) := by
  refine ⟨fun s hs => ?_, fun s hs => ?_, fun s => parse_safeguard today s h, fun l => ?_⟩
  · simp [_safeguard_date, hs]
  · simp [_safeguard_date, hs]
  · rw [derive_fields_eq]
    exact ⟨parse_safeguard today l.entry_date h, parse_safeguard today l.date_posted h⟩

/-- Witness for claim C6: a valid date survives the safeguard, an
invalid calendar date (31 February) is replaced by the current date, and
a normalized lead's entry date parses. -/
theorem claim6_date_invariant_witness :
    _safeguard_date "12/10/2026" "31/12/2020" = "31/12/2020" ∧
    _safeguard_date "12/10/2026" "31/02/2021" = "12/10/2026" ∧
    (parse_ddmmyyyy (derive_fields "12/10/2026" { entry_date := "N/A" }).entry_date).isSome = true :=
  ⟨(claim6_date_invariant "12/10/2026" (by decide)).1 "31/12/2020" (by decide),
   (claim6_date_invariant "12/10/2026" (by decide)).2.1 "31/02/2021" (by decide),
   ((claim6_date_invariant "12/10/2026" (by decide)).2.2.2 { entry_date := "N/A" }).1⟩

/-- Strings accepted by `parse_ddmmyyyy` are nonempty, differ from the
"N/A" sentinel, and convert to an ISO date, so `_ddmmyyyy_to_iso` cannot
return `None` on them. -/
theorem iso_some_of_parse (s : String) (h : (parse_ddmmyyyy s).isSome = true) :
    (_ddmmyyyy_to_iso s).isSome = true := by
  obtain ⟨⟨d, m, y⟩, hp⟩ := Option.isSome_iff_exists.mp h
  have hne1 : s ≠ "" := by rintro rfl; exact absurd h (by decide)
  have hne2 : s ≠ "N/A" := by rintro rfl; exact absurd h (by decide)
  simp [_ddmmyyyy_to_iso, hne1, hne2, hp]

/-- Claim C10: on every lead produced by the normalizer the `/ingest`
endpoint's DD/MM/YYYY-to-ISO conversion returns a value (never `None`)
for both safeguarded date fields, so stored records carry non-null ISO
dates; the hypothesis is that the current-date string parses, which
`strftime` guarantees. -/
theorem claim10_iso_nonnull (today : String) (l : ExtractedLead)
    (h : (parse_ddmmyyyy today).isSome = true) :
    (_ddmmyyyy_to_iso ((derive_fields today l).entry_date)).isSome = true ∧
    (_ddmmyyyy_to_iso ((derive_fields today l).date_posted)).isSome = true := by
  rw [derive_fields_eq]
  exact ⟨iso_some_of_parse _ (parse_safeguard today l.entry_date h),
    iso_some_of_parse _ (parse_safeguard today l.date_posted h)⟩

/-- Witness for claim C10 at a lead whose supplied dates are garbage. -/
theorem claim10_iso_nonnull_witness :
    (_ddmmyyyy_to_iso ((derive_fields "12/10/2026"
      { entry_date := "bogus", date_posted := "32/01/2025" }).entry_date)).isSome = true ∧
    (_ddmmyyyy_to_iso ((derive_fields "12/10/2026"
      { entry_date := "bogus", date_posted := "32/01/2025" }).date_posted)).isSome = true :=
  claim10_iso_nonnull "12/10/2026" { entry_date := "bogus", date_posted := "32/01/2025" } (by decide)

/-- Claim C7: when a stored row matches the incoming lead's dedupe key,
the endpoint answers `duplicate` naming that (first matching) row, flags
it (unless already flagged) and stores nothing — the table keeps its
length — and the whole outcome is independent of the incoming lead's
qualification, so an unqualified repeat (e.g. one with skip="yes") is
dropped without being re-evaluated. -/
theorem claim7_duplicate_before_qualification
    (db : List LeadRow) (nextId : Nat) (d : IngestData) (row : LeadRow)
    (hfind : db.find? (fun r => r.dedupe_key == d.dedupe_key) = some row) :
    ((ingest_dedupe db nextId d).2 = .duplicate row.id) ∧
    ((ingest_dedupe db nextId d).1 =
      if row.duplicate_flag then db
      else db.map (fun r => if r.id == row.id then { r with duplicate_flag := true } else r)) ∧
    ((ingest_dedupe db nextId d).1.length = db.length) ∧
    (∀ q : Bool, ingest_dedupe db nextId { d with qualified := q } = ingest_dedupe db nextId d) := by
  refine ⟨?_, ?_, ?_, ?_⟩
  · simp [ingest_dedupe, hfind]
  · simp [ingest_dedupe, hfind]
  · cases hfl : row.duplicate_flag <;> simp [ingest_dedupe, hfind, hfl]
  · intro q
    simp [ingest_dedupe, hfind]

/-- Witness for claim C7: a stored qualified row, then an unqualified
posting with the same key: the original row gets flagged, the posting is
dropped, the table does not grow. -/
theorem claim7_witness :
    ((ingest_dedupe [⟨1, "sparky co|qualified electrician", false⟩] 2
      ⟨"sparky co|qualified electrician", false, "Direct employer ad"⟩).2 =
        .duplicate 1) ∧
    ((ingest_dedupe [⟨1, "sparky co|qualified electrician", false⟩] 2
      ⟨"sparky co|qualified electrician", false, "Direct employer ad"⟩).1.length = 1) :=
  ⟨(claim7_duplicate_before_qualification
      [⟨1, "sparky co|qualified electrician", false⟩] 2
      ⟨"sparky co|qualified electrician", false, "Direct employer ad"⟩
      ⟨1, "sparky co|qualified electrician", false⟩ (by decide)).1,
   (claim7_duplicate_before_qualification
      [⟨1, "sparky co|qualified electrician", false⟩] 2
      ⟨"sparky co|qualified electrician", false, "Direct employer ad"⟩
      ⟨1, "sparky co|qualified electrician", false⟩ (by decide)).2.2.1⟩

/-- Claim C9: duplicate flagging is idempotent — when the first matching
row is already flagged, the decision step returns the database unchanged
(no update is issued) together with the `duplicate` status, and raises no
error. -/
theorem claim9_idempotent_flag
    (db : List LeadRow) (nextId : Nat) (d : IngestData) (row : LeadRow)
    (hfind : db.find? (fun r => r.dedupe_key == d.dedupe_key) = some row)
    (hflag : row.duplicate_flag = true) :
    ingest_dedupe db nextId d = (db, .duplicate row.id) := by
  simp [ingest_dedupe, hfind, hflag]

/-- Witness for claim C9: flagging an already-flagged row changes
nothing. -/
theorem claim9_idempotent_flag_witness :
    ingest_dedupe [⟨1, "sparky co|qualified electrician", true⟩] 2
      ⟨"sparky co|qualified electrician", true, "N/A"⟩ =
      ([⟨1, "sparky co|qualified electrician", true⟩], .duplicate 1) :=
  claim9_idempotent_flag [⟨1, "sparky co|qualified electrician", true⟩] 2
    ⟨"sparky co|qualified electrician", true, "N/A"⟩
    ⟨1, "sparky co|qualified electrician", true⟩ (by decide) rfl

/-- Does this (possibly absent) JSON value validate as a pydantic `str`
field? -/
def str_ok : Option Json → Bool
  | none => true
  | some (.str _) => true
  | some _ => false

/-- Does this (possibly absent) JSON value validate as a pydantic `int`
field? -/
def int_ok : Option Json → Bool
  | none => true
  | some (.num _) => true
  | some (.str s) => s.toInt?.isSome
  | some _ => false

/-- The string a lax `str` field validation produces: the supplied value
if one is present, the default otherwise. -/
def str_val (dflt : String) : Option Json → String
  | some (.str s) => s
  | _ => dflt

/-- Goodness of a payload mapping for `ExtractedLead.model_validate`:
every recognized field that is present holds a value of the field's
type. -/
def payload_ok (p : List (String × Json)) : Prop :=
  str_ok (fieldLookup p "First Name" "first_name") = true ∧
  str_ok (fieldLookup p "Email" "email") = true ∧
  str_ok (fieldLookup p "Phone" "phone") = true ∧
  str_ok (fieldLookup p "Company" "company") = true ∧
  str_ok (fieldLookup p "Roles Advertised" "roles_advertised") = true ∧
  str_ok (fieldLookup p "Sector" "sector") = true ∧
  str_ok (fieldLookup p "Employment Type" "employment_type") = true ∧
  str_ok (fieldLookup p "Date Posted" "date_posted") = true ∧
  str_ok (fieldLookup p "Entry Date" "entry_date") = true ∧
  str_ok (fieldLookup p "Salary Info" "salary_info") = true ∧
  str_ok (fieldLookup p "Location" "location") = true ∧
  str_ok (fieldLookup p "Ad URL" "ad_url") = true ∧
  str_ok (fieldLookup p "Skip" "skip") = true ∧
  str_ok (fieldLookup p "Skip Reason" "skip_reason") = true ∧
  str_ok (assoc p "qualified") = true ∧
  int_ok (assoc p "priority") = true ∧
  str_ok (assoc p "dedupe_key") = true

instance (p : List (String × Json)) : Decidable (payload_ok p) := by
  unfold payload_ok
  infer_instance

/-- The output field `v` holds either the value supplied in the payload
for this field (alias or name) or the sentinel default. -/
def supplied_or_default (p : List (String × Json)) (al fname v dflt : String) : Prop :=
  fieldLookup p al fname = some (.str v) ∨ (fieldLookup p al fname = none ∧ v = dflt)

/-- A good value makes the lax `str` validation succeed with `str_val`. -/
theorem vStr_ok (field dflt : String) (v : Option Json) (h : str_ok v = true) :
    vStr field dflt v = .ok (str_val dflt v) := by
  match v with
  | none => rfl
  | some (.str s) => rfl
  | some (.num n) => exact absurd h (by simp [str_ok])
  | some (.jbool b) => exact absurd h (by simp [str_ok])
  | some .jnull => exact absurd h (by simp [str_ok])
  | some (.arr es) => exact absurd h (by simp [str_ok])
  | some (.obj fs) => exact absurd h (by simp [str_ok])

/-- The value `str_val` extracts is the supplied one or the default. -/
theorem str_val_spec (dflt : String) (v : Option Json) (h : str_ok v = true) :
    v = some (.str (str_val dflt v)) ∨ (v = none ∧ str_val dflt v = dflt) := by
  match v with
  | none => exact Or.inr ⟨rfl, rfl⟩
  | some (.str s) => exact Or.inl rfl
  | some (.num n) => exact absurd h (by simp [str_ok])
  | some (.jbool b) => exact absurd h (by simp [str_ok])
  | some .jnull => exact absurd h (by simp [str_ok])
  | some (.arr es) => exact absurd h (by simp [str_ok])
  | some (.obj fs) => exact absurd h (by simp [str_ok])

/-- A good value makes the lax `int` validation succeed. -/
theorem vInt_ok (field : String) (dflt : Int) (v : Option Json) (h : int_ok v = true) :
    ∃ n, vInt field dflt v = .ok n := by
  match v with
  | none => exact ⟨dflt, rfl⟩
  | some (.num n) => exact ⟨n, rfl⟩
  | some (.str s) =>
    simp only [int_ok, Option.isSome_iff_exists] at h
    obtain ⟨n, hn⟩ := h
    exact ⟨n, by simp [vInt, hn]⟩
  | some (.jbool b) => exact absurd h (by simp [int_ok])
  | some .jnull => exact absurd h (by simp [int_ok])
  | some (.arr es) => exact absurd h (by simp [int_ok])
  | some (.obj fs) => exact absurd h (by simp [int_ok])

/-- Conclusion of the amended claim C2: validation succeeds and each of
the fourteen aliased fields of the result holds either the supplied
value or the "N/A" sentinel. -/
def validate_ok_spec (p : List (String × Json)) : Prop :=
  ∃ lead, ExtractedLead.model_validate p = .ok lead ∧
    supplied_or_default p "First Name" "first_name" lead.first_name "N/A" ∧
    supplied_or_default p "Email" "email" lead.email "N/A" ∧
    supplied_or_default p "Phone" "phone" lead.phone "N/A" ∧
    supplied_or_default p "Company" "company" lead.company "N/A" ∧
    supplied_or_default p "Roles Advertised" "roles_advertised" lead.roles_advertised "N/A" ∧
    supplied_or_default p "Sector" "sector" lead.sector "N/A" ∧
    supplied_or_default p "Employment Type" "employment_type" lead.employment_type "N/A" ∧
    supplied_or_default p "Date Posted" "date_posted" lead.date_posted "N/A" ∧
    supplied_or_default p "Entry Date" "entry_date" lead.entry_date "N/A" ∧
    supplied_or_default p "Salary Info" "salary_info" lead.salary_info "N/A" ∧
    supplied_or_default p "Location" "location" lead.location "N/A" ∧
    supplied_or_default p "Ad URL" "ad_url" lead.ad_url "N/A" ∧
    supplied_or_default p "Skip" "skip" lead.skip "N/A" ∧
    supplied_or_default p "Skip Reason" "skip_reason" lead.skip_reason "N/A"

/-- Claim C2 as stated is false on the code: a mapping payload whose
`Email` key holds a number (a perfectly well-formed JSON mapping with an
invalid individual value) makes `model_validate` raise a pydantic
`ValidationError`, which `extract_lead` does not catch. -/
theorem claim2_counterexample :
    ExtractedLead.model_validate [("Email", Json.num 5)] =
      .error (.validation_error "Email") := rfl

/-- Claim C2 (amended): for every mapping payload whose present
recognized keys hold values of the declared type (strings; an integer
for `priority`), validation never fails — whatever keys are missing —
and each of the fourteen fields of the output equals either the value
supplied for it or the sentinel "N/A". Payloads with a wrongly-typed
value for a recognized key instead raise a validation error. -/
theorem claim2_validate_total (p : List (String × Json)) (h : payload_ok p) :
    validate_ok_spec p := by
  obtain ⟨h1, h2, h3, h4, h5, h6, h7, h8, h9, h10, h11, h12, h13, h14, hq, hpr, hdk⟩ := h
  obtain ⟨n, hn⟩ := vInt_ok "priority" 0 _ hpr
  refine ⟨{ first_name := str_val "N/A" (fieldLookup p "First Name" "first_name"),
            email := str_val "N/A" (fieldLookup p "Email" "email"),
            phone := str_val "N/A" (fieldLookup p "Phone" "phone"),
            company := str_val "N/A" (fieldLookup p "Company" "company"),
            roles_advertised := str_val "N/A" (fieldLookup p "Roles Advertised" "roles_advertised"),
            sector := str_val "N/A" (fieldLookup p "Sector" "sector"),
            employment_type := str_val "N/A" (fieldLookup p "Employment Type" "employment_type"),
            date_posted := str_val "N/A" (fieldLookup p "Date Posted" "date_posted"),
            entry_date := str_val "N/A" (fieldLookup p "Entry Date" "entry_date"),
            salary_info := str_val "N/A" (fieldLookup p "Salary Info" "salary_info"),
            location := str_val "N/A" (fieldLookup p "Location" "location"),
            ad_url := str_val "N/A" (fieldLookup p "Ad URL" "ad_url"),
            skip := str_val "N/A" (fieldLookup p "Skip" "skip"),
            skip_reason := str_val "N/A" (fieldLookup p "Skip Reason" "skip_reason"),
            qualified := str_val "No" (assoc p "qualified"),
            priority := n,
            dedupe_key := str_val "" (assoc p "dedupe_key") },
    ?_, ?_, ?_, ?_, ?_, ?_, ?_, ?_, ?_, ?_, ?_, ?_, ?_, ?_, ?_⟩
  · simp [ExtractedLead.model_validate,
      vStr_ok _ _ _ h1, vStr_ok _ _ _ h2, vStr_ok _ _ _ h3, vStr_ok _ _ _ h4,
      vStr_ok _ _ _ h5, vStr_ok _ _ _ h6, vStr_ok _ _ _ h7, vStr_ok _ _ _ h8,
      vStr_ok _ _ _ h9, vStr_ok _ _ _ h10, vStr_ok _ _ _ h11, vStr_ok _ _ _ h12,
      vStr_ok _ _ _ h13, vStr_ok _ _ _ h14, vStr_ok _ _ _ hq, vStr_ok _ _ _ hdk, hn]
    rfl
  · exact str_val_spec "N/A" _ h1
  · exact str_val_spec "N/A" _ h2
  · exact str_val_spec "N/A" _ h3
  · exact str_val_spec "N/A" _ h4
  · exact str_val_spec "N/A" _ h5
  · exact str_val_spec "N/A" _ h6
  · exact str_val_spec "N/A" _ h7
  · exact str_val_spec "N/A" _ h8
  · exact str_val_spec "N/A" _ h9
  · exact str_val_spec "N/A" _ h10
  · exact str_val_spec "N/A" _ h11
  · exact str_val_spec "N/A" _ h12
  · exact str_val_spec "N/A" _ h13
  · exact str_val_spec "N/A" _ h14

/-- Witness for claim C2 (amended): a payload missing most keys, with an
aliased key, a field-name key and an extra unknown key, validates. -/
theorem claim2_validate_total_witness :
    validate_ok_spec [("Company", Json.str "Sparky Co"), ("email", Json.str "jobs@sparkyco.com.au"),
      ("Unknown Key", Json.num 3)] :=
  claim2_validate_total _ (by decide)

/-- Can the raw payload be coerced into a mapping at all, i.e. does the
JSON-parsing step (direct or via the brace-substring fallback) yield a
JSON object? -/
def can_coerce_mapping (r : RawPayload) : Bool :=
  match parse_raw r with
  | .ok (.obj _) => true
  | _ => false

/-- Claim C8 as stated is false on the code: a raw payload that parses
to a perfectly good JSON mapping — so it certainly can be coerced into a
mapping — still makes `extract_lead` raise (a pydantic validation error)
when one of the mapping's recognized values has the wrong type, so the
claimed "hard failure iff not coercible to a mapping" equivalence does
not hold. -/
theorem claim8_counterexample :
    (let r : RawPayload :=
      { loads := some (.obj [("Email", Json.num 5)]), brace_match := none, loads_of_match := none };
      can_coerce_mapping r = true ∧
      extract_lead "17/08/2025" r = .error (.validation_error "Email")) := by
  exact ⟨rfl, rfl⟩

/-- Case characterization of `extract_lead`: a parse error or a
validation error propagates unchanged, and otherwise the derived lead is
returned — the derivation step itself never fails. -/
theorem extract_lead_eq (today : String) (r : RawPayload) :
    extract_lead today r =
      match parse_raw r with
      | .error e => .error e
      | .ok j =>
        match ExtractedLead.model_validate_json j with
        | .error e => .error e
        | .ok lead => .ok (derive_fields today lead) := by
  cases hp : parse_raw r with
  | error e =>
    unfold extract_lead
    rw [hp]
    rfl
  | ok j =>
    unfold extract_lead
    rw [hp]
    show derive_fields today <$> ExtractedLead.model_validate_json j =
      match ExtractedLead.model_validate_json j with
      | .error e => .error e
      | .ok lead => .ok (derive_fields today lead)
    cases ExtractedLead.model_validate_json j with
    | error e => rfl
    | ok lead => rfl

/-- Claim C8 (amended): `extract_lead` succeeds exactly when the raw
payload parses (directly, or through the brace-substring fallback) to a
JSON value that the pydantic model validates — a mapping whose present
recognized keys hold well-typed values; every other defect raises. In
particular, when the payload is neither valid JSON nor contains a
brace-delimited substring, the distinct "Failed to parse JSON from AI
response." error is raised. -/
theorem claim8_failure_iff (today : String) (r : RawPayload) :
    ((extract_lead today r).isOk = true ↔
      (∃ j, parse_raw r = .ok j ∧ (ExtractedLead.model_validate_json j).isOk = true)) ∧
    (∀ j, extract_lead today { loads := none, brace_match := none, loads_of_match := j } =
      .error .parse_failed) := by
  constructor
  · rw [extract_lead_eq]
    cases hp : parse_raw r with
    | error e => simp [hp, Except.isOk, Except.toBool]
    | ok j =>
      cases hm : ExtractedLead.model_validate_json j with
      | error e => simp [hp, hm, Except.isOk, Except.toBool]
      | ok lead => simp [hp, hm, Except.isOk, Except.toBool]
  · intro j
    rfl

/-- Witness for claim C8 (amended): with no parse at all the distinct
parse error is raised, and a payload parsing to a well-typed mapping
makes `extract_lead` succeed. -/
theorem claim8_failure_iff_witness :
    extract_lead "17/08/2025" { loads := none, brace_match := none, loads_of_match := none } =
      .error .parse_failed ∧
    (extract_lead "17/08/2025"
      { loads := some (.obj [("Company", Json.str "Sparky Co")]),
        brace_match := none, loads_of_match := none }).isOk = true :=
  ⟨(claim8_failure_iff "17/08/2025"
      { loads := none, brace_match := none, loads_of_match := none }).2 none,
   (claim8_failure_iff "17/08/2025"
      { loads := some (.obj [("Company", Json.str "Sparky Co")]),
        brace_match := none, loads_of_match := none }).1.mpr
      ⟨.obj [("Company", Json.str "Sparky Co")], rfl, by decide⟩⟩
